import Mathlib

/-!
Shallow embedding of the crawl engine of `async_strava/strava.py`
(class `Strava` and the `strava_connector` context manager).

Modelling conventions:
* HTTP is abstracted as an oracle: `statuses : Nat → Nat` gives the status
  of the i-th GET issued for one uri by `_get_response`; a feed is a list of
  page fetch results consumed in fetch order (the cursor only steers the
  loop condition in the source, the site decides the page content); detail
  pages are an oracle `String → DetailFetch` keyed by the activity href.
* Raised exceptions become explicit outcome constructors
  (`StravaTooManyRequests`, `ServerError`, `StravaSessionFailed`,
  `ParserError`/`ActivityNotExist` which the source catches and turns into
  a `None` task result).
* DOM access is abstracted the way the source uses it: an inline-stats
  section is the list of its `li` items as (label text, strong text) pairs,
  a more-stats row is its `div.spans3` texts and `div.spans5` texts,
  a detail page records whether `span.title` is present.
* Python `float` strings reaching `float()` here consist only of digits and
  dots (they come from `re.findall(r'[\d.]', ...)`), so `float()` is modelled
  exactly on those inputs as a rational; `asyncio.sleep(d)` is recorded in a
  `delays` trace.
-/

namespace Strava

/-- Calendar date; the source compares `(day, month, year)` triples of
`datetime` values. -/
structure Date where
  day : Int
  month : Int
  year : Int
deriving DecidableEq

/-- `ActivityInfo` named tuple as constructed in `strava.py`
(`routable, href, nickname, type, date, title`). -/
structure ActivityInfo where
  routable : Bool
  href : String
  nickname : String
  atype : String
  date : Date
  title : String
deriving DecidableEq

/-- merged `{distance, moving_time, pace, elevation_gain, calories}` dict
built in `process_activity_page`. -/
structure ActivityValues where
  distance : ℚ
  moving_time : Nat
  pace : Nat
  elevation_gain : Nat
  calories : Int
deriving DecidableEq

/-- `Activity(info=..., values=...)` named tuple. -/
structure Activity where
  info : ActivityInfo
  values : ActivityValues
deriving DecidableEq

/-! ### Text helpers used by the parsers -/

/-- Python `int` on a run of decimal digit characters. -/
def digits_val (cs : List Char) : Nat :=
  cs.foldl (fun acc c => acc * 10 + (c.toNat - '0'.toNat)) 0

/-- `re.search(r'\d+', s)`: the first maximal run of digits, if any. -/
def first_digit_run (cs : List Char) : Option (List Char) :=
  let rest := cs.dropWhile (fun c => !c.isDigit)
  if rest.isEmpty then none else some (rest.takeWhile Char.isDigit)

/-- Python `str.strip()` (whitespace strip on both ends). -/
def py_strip (cs : List Char) : List Char :=
  ((cs.dropWhile Char.isWhitespace).reverse.dropWhile Char.isWhitespace).reverse

/-- Python `str.split(sep)` for a single character separator
(`''.split(c) = ['']`). -/
def split_on_char (sep : Char) : List Char → List (List Char)
  | [] => [[]]
  | c :: cs =>
    match split_on_char sep cs with
    | [] => if c = sep then [[], []] else [[c]]
    | h :: t => if c = sep then [] :: h :: t else (c :: h) :: t

/-- Python `float()` restricted to the strings that can reach it in
`_process_inline_section`: the characters kept by `re.findall(r'[\d.]', _)`,
i.e. digits and dots.  Valid iff at most one dot and at least one digit;
the value is exact (every such literal is a finite decimal). -/
def parse_float (cs : List Char) : Option ℚ :=
  match split_on_char '.' cs with
  | [ds] =>
    if ds.isEmpty then none
    else if ds.all Char.isDigit then some ((digits_val ds : ℚ)) else none
  | [ds, fs] =>
    if ds.isEmpty && fs.isEmpty then none
    else if (ds ++ fs).all Char.isDigit then
      some ((digits_val ds : ℚ) + (digits_val fs : ℚ) / (10 : ℚ) ^ fs.length)
    else none
  | _ => none

/-- Python `int()` on the de-comma'd calories string: optional sign then a
nonempty digit run (whitespace was already stripped). -/
def py_int (cs : List Char) : Option Int :=
  match cs with
  | '-' :: rest =>
    if !rest.isEmpty && rest.all Char.isDigit then some (-(digits_val rest : Int)) else none
  | '+' :: rest =>
    if !rest.isEmpty && rest.all Char.isDigit then some ((digits_val rest : Int)) else none
  | t =>
    if !t.isEmpty && t.all Char.isDigit then some ((digits_val t : Int)) else none

/-! ### `_process_inline_section` -/

/-- `validate_str_value` from `_process_inline_section`: first digit run as
an int, `0` when the element has no digits. -/
def validate_str_value (cs : List Char) : Nat :=
  match first_digit_run cs with
  | some run => digits_val run
  | none => 0

/-- `str_time_to_sec` from `_process_inline_section`:
`[1, 18, 53] ↦ 1*60^2 + 18*60 + 53`. -/
def str_time_to_sec : List Nat → Nat
  | [] => 0
  | t :: rest => t * 60 ^ rest.length + str_time_to_sec rest

/-- result dict `{distance, moving_time, pace}` of
`_process_inline_section`. -/
structure InlineStats where
  distance : ℚ
  moving_time : Nat
  pace : Nat
deriving DecidableEq

/-- Loop body of `_process_inline_section` over the `li` items; an item is
(label text, strong text).  `Except Unit` is raising `ParserError`
(here: `float()` raising on a malformed distance string). -/
def process_inline_items : InlineStats → List (String × String) → Except Unit InlineStats
  | st, [] => .ok st
  | st, (label, cluster) :: rest =>
    let cluster_type := py_strip label.data
    let cs := cluster.data
    let distance_step : Except Unit InlineStats :=
      if cluster_type = "Distance".data then
        let divided_distance := cs.filter (fun c => c.isDigit || c = '.')
        if divided_distance.isEmpty then .ok st
        else
          match parse_float divided_distance with
          | some v => .ok { st with distance := v }
          | none => .error ()
      else .ok st
    match distance_step with
    | .error e => .error e
    | .ok st1 =>
      let st2 :=
        if cluster_type = "Moving Time".data ∨ cluster_type = "Elapsed Time".data ∨
            cluster_type = "Duration".data then
          { st1 with moving_time := str_time_to_sec ((split_on_char ':' cs).map validate_str_value) }
        else st1
      let st3 :=
        if cluster_type = "Pace".data then
          { st2 with pace := str_time_to_sec ((split_on_char ':' cs).map validate_str_value) }
        else st2
      process_inline_items st3 rest

/-- `_process_inline_section`.  A missing section (`select_one` returned
`None`) raises (`AttributeError` → `ParserError`); defaults are
`distance=0.0, moving_time=0, pace=0`. -/
def process_inline_section : Option (List (String × String)) → Except Unit InlineStats
  | none => .error ()
  | some items => process_inline_items ⟨0, 0, 0⟩ items

/-! ### `_process_more_stats` -/

/-- One `div.row` of the more-stats section: its `div.spans3` texts
(values) and `div.spans5` texts (descriptions). -/
structure MoreRow where
  values : List String
  descs : List String
deriving DecidableEq

/-- Inner loop of `_process_more_stats`: `for index, desc in
enumerate(descriptions)`.  A missing `values[index]` raises `IndexError`
(→ `ParserError`), a malformed calories number raises `ValueError`. -/
def process_row_items (values : List String) :
    List String → Nat → Nat → Int → Except Unit (Nat × Int)
  | [], _, elevation_gain, calories => .ok (elevation_gain, calories)
  | d :: ds, index, elevation_gain, calories =>
    let desc := py_strip d.data
    let elevation_step : Except Unit Nat :=
      if desc = "Elevation".data then
        match values.get? index with
        | none => .error ()
        | some v =>
          match first_digit_run v.data with
          | some run => .ok (digits_val run)
          | none => .ok elevation_gain
      else .ok elevation_gain
    match elevation_step with
    | .error e => .error e
    | .ok elev1 =>
      let calories_step : Except Unit Int :=
        if desc = "Calories".data then
          match values.get? index with
          | none => .error ()
          | some v =>
            let calories_value := py_strip v.data
            if calories_value = "—".data then .ok calories
            else
              match py_int (calories_value.filter (fun c => c ≠ ',')) with
              | some n => .ok n
              | none => .error ()
        else .ok calories
      match calories_step with
      | .error e => .error e
      | .ok cal1 => process_row_items values ds (index + 1) elev1 cal1

/-- Outer loop of `_process_more_stats` over the `div.row` clusters. -/
def process_more_rows : List MoreRow → Nat → Int → Except Unit (Nat × Int)
  | [], elevation_gain, calories => .ok (elevation_gain, calories)
  | r :: rs, elevation_gain, calories =>
    match process_row_items r.values r.descs 0 elevation_gain calories with
    | .error e => .error e
    | .ok (e1, c1) => process_more_rows rs e1 c1

/-- `_process_more_stats`: a missing section is fine and yields the
defaults `{elevation_gain: 0, calories: 0}`. -/
def process_more_stats : Option (List MoreRow) → Except Unit (Nat × Int)
  | none => .ok (0, 0)
  | some rows => process_more_rows rows 0 0

/-! ### `_get_response` (Transport Guard) -/

/-- Outcome of `_get_response`: the returned response (identified by which
underlying request produced it, with its status), or a raised exception. -/
inductive GetOutcome where
  | success (request status : Nat)
  | tooManyRequests
  | serverError (code : Nat)
deriving DecidableEq

/-- Trace of one `_get_response` call: outcome, how many underlying GETs
were issued, and the `asyncio.sleep` delays performed. -/
structure GetTrace where
  outcome : GetOutcome
  requests : Nat
  delays : List Nat
deriving DecidableEq

/-- `Strava._get_response`; `statuses i` is the status of the i-th GET this
call issues for the uri. -/
def get_response (statuses : Nat → Nat) : GetTrace :=
  let status_code := statuses 0
  if status_code = 200 then ⟨.success 0 status_code, 1, []⟩
  else if status_code = 429 then ⟨.tooManyRequests, 1, []⟩
  else if 400 ≤ status_code then
    if statuses 1 ≠ 200 then ⟨.serverError status_code, 2, [5]⟩
    else ⟨.success 1 (statuses 1), 2, [5]⟩
  else ⟨.success 0 status_code, 1, []⟩

/-! ### `process_activity_page` (Extraction Pipeline, club-crawl mode) -/

/-- The parts of an activity detail page the pipeline reads:
whether `span.title` exists, the inline-stats `li` items, and the
more-stats rows (each section `none` when its selector finds nothing). -/
structure DetailPage where
  hasTitle : Bool
  inlineSection : Option (List (String × String))
  moreStatsSection : Option (List MoreRow)
deriving DecidableEq

/-- What `_get_response` does for one detail-page fetch. -/
inductive DetailFetch where
  | ok (page : DetailPage)
  | serverError
  | tooManyRequests
deriving DecidableEq

/-- Result of one extraction task: the value `process_activity_page`
returns (`none` = the source returned `None`: ServerError,
`ActivityNotExist` or `ParserError`, all absorbed there), or a raised
`StravaTooManyRequests` which is not absorbed. -/
inductive TaskOutcome where
  | result (r : Option Activity)
  | tooMany
deriving DecidableEq

/-- `Strava.process_activity_page` with `activity_info` provided (the club
crawl always passes it, so `_form_activity_info` is skipped). -/
def process_activity_page (fetch : DetailFetch) (activity_info : ActivityInfo) : TaskOutcome :=
  match fetch with
  | .serverError => .result none
  | .tooManyRequests => .tooMany
  | .ok page =>
    if !page.hasTitle then .result none
    else
      match process_inline_section page.inlineSection with
      | .error _ => .result none
      | .ok inl =>
        match process_more_stats page.moreStatsSection with
        | .error _ => .result none
        | .ok (elev, cal) =>
          .result (some ⟨activity_info, ⟨inl.distance, inl.moving_time, inl.pace, elev, cal⟩⟩)

/-! ### `_get_tasks` (Pagination Walker page scan + Fan-Out Dispatcher) -/

/-- The fields of a feed stub used to build its `ActivityInfo`
(single mode reads them from the react props, group mode from the group
row; both reduce to these values). -/
structure StubData where
  routable : Bool
  title : String
  href : String
  nickname : String
  atype : String
deriving DecidableEq

/-- One `div.content.web-feed-4-component` container of a feed page:
a single activity or a group row expanding to several member stubs, each
container carrying its `cursorData.updated_at` cursor and its displayed
date (group members share the container's date). -/
inductive FeedEntry where
  | single (cursor : Int) (date : Date) (stub : StubData)
  | group (cursor : Int) (date : Date) (members : List StubData)
deriving DecidableEq

/-- The `ActivityInfo` that `validate_react_activity_info` builds from a
stub once the date filter has been passed. -/
def mk_info (date : Date) (s : StubData) : ActivityInfo :=
  ⟨s.routable, s.href, s.nickname, s.atype, date, s.title⟩

/-- `validate_react_activity_info`: `None` when a date filter is present
and the `(day, month, year)` triples differ, the built info otherwise. -/
def validate_react_activity_info (filters_date : Option Date) (date : Date)
    (s : StubData) : Option ActivityInfo :=
  match filters_date with
  | none => some (mk_info date s)
  | some comparsion_date =>
    if (comparsion_date.day, comparsion_date.month, comparsion_date.year) =
        (date.day, date.month, date.year) then some (mk_info date s)
    else none

/-- cursor of a feed container (`activity_desc['cursorData']['updated_at']`). -/
def entry_cursor : FeedEntry → Int
  | .single c _ _ => c
  | .group c _ _ => c

/-- The tasks one container adds: its stubs surviving the date filter. -/
def entry_dispatch (filters_date : Option Date) : FeedEntry → List ActivityInfo
  | .single _ date s => (validate_react_activity_info filters_date date s).toList
  | .group _ date ms => ms.filterMap (validate_react_activity_info filters_date date)

/-- `before` as computed by the `_get_tasks` loop: initialised to `0`,
overwritten with each container's cursor, so the last container's cursor,
or `0` for an empty page. -/
def before_of (entries : List FeedEntry) : Int :=
  entries.foldl (fun _ e => entry_cursor e) 0

/-- What `_get_response` does for one feed-page fetch. -/
inductive PageFetch where
  | ok (entries : List FeedEntry)
  | serverError
  | tooManyRequests
deriving DecidableEq

/-- Result of `_get_tasks`: the returned `before` (`-1` after a caught
`ServerError`) together with the tasks appended, or a propagated
`StravaTooManyRequests`. -/
inductive GetTasksResult where
  | ok (before : Int) (dispatched : List ActivityInfo)
  | tooMany
deriving DecidableEq

/-- `Strava._get_tasks` for one page. -/
def get_tasks (filters_date : Option Date) : PageFetch → GetTasksResult
  | .serverError => .ok (-1) []
  | .tooManyRequests => .tooMany
  | .ok entries =>
    .ok (before_of entries) (entries.foldr (fun e acc => entry_dispatch filters_date e ++ acc) [])

/-! ### `get_club_activities` (pagination loop + join) -/

/-- `Strava.to_json`: keeps only the non-`None` gather results (each kept
one rendered as a dict; the dict rendering is carried as the `Activity`). -/
def to_json (results : List (Option Activity)) : List Activity :=
  results.filterMap id

/-- The task outcomes of a list of dispatched handles: each task runs
`process_activity_page` on its own href's detail fetch. -/
def task_outcomes (detail : String → DetailFetch) (infos : List ActivityInfo) :
    List TaskOutcome :=
  infos.map (fun i => process_activity_page (detail i.href) i)

/-- `asyncio.gather(*tasks)`: re-raises if some task raised, otherwise the
list of task return values. -/
def gather (outs : List TaskOutcome) : Except Unit (List (Option Activity)) :=
  if outs.any (fun o => decide (o = .tooMany)) then .error ()
  else .ok (outs.map (fun o => match o with | .result r => r | .tooMany => none))

/-- What the caller of `get_club_activities` observes. -/
inductive CrawlResult where
  | records (rs : List Activity)
  | errorNone
  | rateLimited
deriving DecidableEq

/-- `to_json(await asyncio.gather(*activities_tasks))`, or the propagated
`StravaTooManyRequests`. -/
def gather_results (detail : String → DetailFetch) (infos : List ActivityInfo) :
    CrawlResult :=
  match gather (task_outcomes detail infos) with
  | .error _ => .rateLimited
  | .ok rs => .records (to_json rs)

/-- The complete records produced by a list of dispatched tasks (what a
successful gather + `to_json` yields). -/
def records_of (detail : String → DetailFetch) (infos : List ActivityInfo) :
    List Activity :=
  to_json ((task_outcomes detail infos).map
    (fun o => match o with | .result r => r | .tooMany => none))

/-- Full trace of one `get_club_activities` run: pages fetched, handles
dispatched, number of gather joins performed, and the visible result. -/
structure CrawlOutcome where
  fetches : Nat
  dispatched : List ActivityInfo
  gathers : Nat
  result : CrawlResult
deriving DecidableEq

/-- The `before = get_tasks(...); while before != 0: ...` loop of
`get_club_activities`.  `pages` is the feed in fetch order; once it is
exhausted the site serves pages with no entries, so `before` becomes `0`
and the loop ends. -/
def crawl_go (filters_date : Option Date) (detail : String → DetailFetch) :
    List PageFetch → List ActivityInfo → Nat → CrawlOutcome
  | [], activities_tasks, fetches =>
    ⟨fetches + 1, activities_tasks, 1, gather_results detail activities_tasks⟩
  | p :: rest, activities_tasks, fetches =>
    match get_tasks filters_date p with
    | .tooMany => ⟨fetches + 1, activities_tasks, 0, .rateLimited⟩
    | .ok before newTasks =>
      if before = 0 then
        ⟨fetches + 1, activities_tasks ++ newTasks, 1,
          gather_results detail (activities_tasks ++ newTasks)⟩
      else if before = -1 then
        ⟨fetches + 1, activities_tasks ++ newTasks, 0, .errorNone⟩
      else crawl_go filters_date detail rest (activities_tasks ++ newTasks) (fetches + 1)

/-- `Strava.get_club_activities`. -/
def get_club_activities (filters_date : Option Date) (detail : String → DetailFetch)
    (pages : List PageFetch) : CrawlOutcome :=
  crawl_go filters_date detail pages [] 0

/-! ### `_session_reconnecting`, `__ainit__`, `strava_connector` -/

/-- `allowed_attempts: int = 2` in `_session_reconnecting`. -/
def allowed_attempts : Nat := 2

/-- Trace of `_session_reconnecting`: the returned code (`0` established /
`-1` can't reconnect), authorization attempts performed, sleeps performed. -/
structure ReconnectTrace where
  retcode : Int
  attempts : Nat
  delays : List Nat
deriving DecidableEq

/-- The `for check_counter in range(allowed_attempts)` loop; `auth i` is
whether `connection_check` succeeds on the i-th authorization attempt. -/
def reconnect_go (auth : Nat → Bool) : Nat → Nat → List Nat → ReconnectTrace
  | check_counter, 0, delays => ⟨-1, check_counter, delays⟩
  | check_counter, remaining + 1, delays =>
    if auth check_counter then ⟨0, check_counter + 1, delays⟩
    else reconnect_go auth (check_counter + 1) remaining (delays ++ [15])

/-- `Strava._session_reconnecting`. -/
def session_reconnecting (auth : Nat → Bool) : ReconnectTrace :=
  reconnect_go auth 0 allowed_attempts []

/-- Outcome of `Strava.__ainit__`. -/
inductive InitResult where
  | established
  | sessionFailed
deriving DecidableEq

/-- `Strava.__ainit__`: raises `StravaSessionFailed` unless
`_session_reconnecting` returned `0`. -/
def ainit (auth : Nat → Bool) : InitResult :=
  if (session_reconnecting auth).retcode = 0 then .established else .sessionFailed

/-- `strava_connector` constructs the `Strava` instance exactly once; a
`StravaSessionFailed` raised there propagates to the caller and no further
login is attempted up the stack. -/
def connector_init (auth : Nat → Bool) : InitResult :=
  ainit auth

/-! ### Derived page-level dispatch notions used by the theorems -/

/-- Tasks one page fetch adds to `activities_tasks`. -/
def page_dispatched (filters_date : Option Date) : PageFetch → List ActivityInfo
  | .ok entries => entries.foldr (fun e acc => entry_dispatch filters_date e ++ acc) []
  | _ => []

/-- Tasks a list of page fetches adds, in order. -/
def pages_dispatch (filters_date : Option Date) : List PageFetch → List ActivityInfo
  | [] => []
  | p :: ps => page_dispatched filters_date p ++ pages_dispatch filters_date ps

/-- A page on which the pagination loop continues: a delivered page whose
computed `before` is neither the `0` end sentinel nor the `-1` error
sentinel. -/
def page_continues : PageFetch → Bool
  | .ok entries => before_of entries ≠ 0 && before_of entries ≠ -1
  | _ => false

/-- a `CrawlResult` that is a returned record collection. -/
def is_record_collection : CrawlResult → Bool
  | .records _ => true
  | _ => false

/-- a `CrawlResult` that is a raised fatal error. -/
def is_fatal_raise : CrawlResult → Bool
  | .rateLimited => true
  | _ => false

/-! ### Concrete data used by witnesses and counterexamples -/

/-- 22 August 2021, the reference date of the source comments. -/
def d20210822 : Date := ⟨22, 8, 2021⟩

/-- a feed stub. -/
def stubA : StubData :=
  ⟨true, "Morning Run", "https://www.strava.com/activities/1", "Alice", "Run"⟩

/-- detail oracle under which every detail fetch fails with ServerError. -/
def detail_server_error : String → DetailFetch := fun _ => .serverError

/-- feed page with 5 single-activity containers (cursors ≠ 0, -1). -/
def feed_page5 : PageFetch :=
  .ok (List.replicate 5 (FeedEntry.single 7 d20210822 stubA))

/-- feed page with 3 single-activity containers (cursors ≠ 0, -1). -/
def feed_page3 : PageFetch :=
  .ok (List.replicate 3 (FeedEntry.single 4 d20210822 stubA))

/-- feed whose successive pages contain 5, 3 and 0 entries. -/
def feed530 : List PageFetch := [feed_page5, feed_page3, .ok []]

/-- a detail page whose primary metrics are degenerate: distance parses to
`0` and pace parses to `0`. -/
def degenerate_page : DetailPage :=
  { hasTitle := true
    inlineSection := some
      [("Distance", "0.0 km"), ("Moving Time", "2:00"), ("Pace", "0:00/km")]
    moreStatsSection := none }

/-- the `ActivityInfo` the feed builds for `stubA`. -/
def infoA : ActivityInfo := mk_info d20210822 stubA

/-! ## Helper lemmas -/

/-- Unfolding of one pagination-loop step. -/
theorem crawl_go_cons (f : Option Date) (d : String → DetailFetch) (p : PageFetch)
    (rest : List PageFetch) (tasks : List ActivityInfo) (n : Nat) :
    crawl_go f d (p :: rest) tasks n =
      match get_tasks f p with
      | .tooMany => ⟨n + 1, tasks, 0, .rateLimited⟩
      | .ok before newTasks =>
        if before = 0 then
          ⟨n + 1, tasks ++ newTasks, 1, gather_results d (tasks ++ newTasks)⟩
        else if before = -1 then
          ⟨n + 1, tasks ++ newTasks, 0, .errorNone⟩
        else crawl_go f d rest (tasks ++ newTasks) (n + 1) := rfl

/-- A gather that surfaces a record collection yields exactly the complete
records of the gathered tasks. -/
theorem gather_results_records (detail : String → DetailFetch) (infos : List ActivityInfo)
    (rs : List Activity) (h : gather_results detail infos = .records rs) :
    rs = records_of detail infos := by
  unfold gather_results at h
  cases hg : gather (task_outcomes detail infos) with
  | error e => rw [hg] at h; simp at h
  | ok vs =>
    rw [hg] at h
    simp only [CrawlResult.records.injEq] at h
    unfold gather at hg
    by_cases ha : (task_outcomes detail infos).any (fun o => decide (o = .tooMany)) = true
    · rw [if_pos ha] at hg; cases hg
    · rw [if_neg ha] at hg
      injection hg with hg
      rw [← h, ← hg]
      rfl

/-- Every pagination run either ends with exactly one gather whose value is
the visible result, or ends with no gather and an `errorNone`/`rateLimited`
result. -/
theorem crawl_go_cases (f : Option Date) (d : String → DetailFetch) :
    ∀ (pages : List PageFetch) (tasks : List ActivityInfo) (n : Nat),
      ((crawl_go f d pages tasks n).result =
          gather_results d (crawl_go f d pages tasks n).dispatched ∧
        (crawl_go f d pages tasks n).gathers = 1) ∨
      (((crawl_go f d pages tasks n).result = .errorNone ∨
          (crawl_go f d pages tasks n).result = .rateLimited) ∧
        (crawl_go f d pages tasks n).gathers = 0) := by
  intro pages
  induction pages with
  | nil => intro tasks n; left; exact ⟨rfl, rfl⟩
  | cons p rest ih =>
    intro tasks n
    rw [crawl_go_cons]
    cases get_tasks f p with
    | tooMany => right; exact ⟨Or.inr rfl, rfl⟩
    | ok before newTasks =>
      dsimp only
      by_cases h0 : before = 0
      · rw [if_pos h0]; left; exact ⟨rfl, rfl⟩
      · rw [if_neg h0]
        by_cases h1 : before = -1
        · rw [if_pos h1]; right; exact ⟨Or.inl rfl, rfl⟩
        · rw [if_neg h1]; exact ih _ _

/-- A crawl whose result is a record collection has gathered exactly once,
and the collection is exactly the complete records of all dispatched
handles. -/
theorem crawl_go_records (f : Option Date) (d : String → DetailFetch)
    (pages : List PageFetch) (tasks : List ActivityInfo) (n : Nat) (rs : List Activity)
    (h : (crawl_go f d pages tasks n).result = .records rs) :
    (crawl_go f d pages tasks n).gathers = 1 ∧
    rs = records_of d (crawl_go f d pages tasks n).dispatched := by
  rcases crawl_go_cases f d pages tasks n with ⟨hr, hg⟩ | ⟨hr | hr, _⟩
  · exact ⟨hg, gather_results_records d _ rs (hr.symm.trans h)⟩
  · rw [h] at hr; cases hr
  · rw [h] at hr; cases hr

/-- Pages on which the loop continues are consumed one by one, accumulating
their dispatched tasks. -/
theorem crawl_go_continues (f : Option Date) (d : String → DetailFetch) :
    ∀ (ps rest : List PageFetch) (tasks : List ActivityInfo) (n : Nat),
      (∀ p ∈ ps, page_continues p = true) →
      crawl_go f d (ps ++ rest) tasks n =
        crawl_go f d rest (tasks ++ pages_dispatch f ps) (n + ps.length) := by
  intro ps
  induction ps with
  | nil => intro rest tasks n _; simp [pages_dispatch]
  | cons p ps ih =>
    intro rest tasks n hc
    have hp : page_continues p = true := hc p (by simp)
    cases p with
    | serverError => simp [page_continues] at hp
    | tooManyRequests => simp [page_continues] at hp
    | ok entries =>
      rw [page_continues] at hp
      have h0 : before_of entries ≠ 0 := by
        intro h; rw [h] at hp; simp at hp
      have h1 : before_of entries ≠ -1 := by
        intro h; rw [h] at hp; simp at hp
      rw [List.cons_append, crawl_go_cons]
      simp only [get_tasks]
      rw [if_neg h0, if_neg h1]
      rw [ih rest _ (n + 1) (fun q hq => hc q (by simp [hq]))]
      have hn : n + 1 + ps.length = n + (ps.length + 1) := by omega
      rw [hn]
      simp only [pages_dispatch, page_dispatched, List.append_assoc, List.length_cons]

/-- A page fetch failing with `ServerError` makes the loop return `None`
at once, with no gather. -/
theorem crawl_go_server_error (f : Option Date) (d : String → DetailFetch)
    (rest : List PageFetch) (tasks : List ActivityInfo) (n : Nat) :
    crawl_go f d (PageFetch.serverError :: rest) tasks n =
      ⟨n + 1, tasks, 0, .errorNone⟩ := by
  rw [crawl_go_cons]
  simp [get_tasks]

/-- A page with zero entries ends the loop: `before` stays `0`, the tasks
are gathered. -/
theorem crawl_go_done (f : Option Date) (d : String → DetailFetch)
    (rest : List PageFetch) (tasks : List ActivityInfo) (n : Nat) :
    crawl_go f d (PageFetch.ok [] :: rest) tasks n =
      ⟨n + 1, tasks, 1, gather_results d tasks⟩ := by
  rw [crawl_go_cons]
  simp [get_tasks, before_of]

/-- closed form of the two-attempt reconnect loop. -/
theorem session_reconnecting_eq (auth : Nat → Bool) :
    session_reconnecting auth =
      if auth 0 then ⟨0, 1, []⟩
      else if auth 1 then ⟨0, 2, [15]⟩
      else ⟨-1, 2, [15, 15]⟩ := by
  show (if auth 0 then (⟨0, 0 + 1, []⟩ : ReconnectTrace)
      else if auth 1 then ⟨0, 1 + 1, [] ++ [15]⟩
      else ⟨-1, 2, ([] ++ [15]) ++ [15]⟩) = _
  by_cases h0 : auth 0 <;> by_cases h1 : auth 1 <;> simp [h0, h1]

/-- the source's `(day, month, year)` tuple comparison is equality of
dates. -/
theorem date_tuple_eq (d e : Date) :
    ((d.day, d.month, d.year) = (e.day, e.month, e.year)) ↔ d = e := by
  cases d; cases e
  simp [Prod.ext_iff]

/-- without a date filter `validate_react_activity_info` always builds the
info. -/
theorem validate_none (date : Date) (s : StubData) :
    validate_react_activity_info none date s = some (mk_info date s) := rfl

/-- `validate_react_activity_info` with a date filter keeps a stub exactly
when its date equals the filter date. -/
theorem validate_some (D date : Date) (s : StubData) :
    validate_react_activity_info (some D) date s =
      if date = D then some (mk_info date s) else none := by
  simp only [validate_react_activity_info]
  by_cases h : date = D
  · rw [if_pos ((date_tuple_eq D date).mpr h.symm), if_pos h]
  · rw [if_neg (fun hh => h (((date_tuple_eq D date).mp hh).symm)), if_neg h]

/-- filtering the group members is filtering the unfiltered infos by date. -/
theorem filterMap_validate (D date : Date) (ms : List StubData) :
    ms.filterMap (validate_react_activity_info (some D) date) =
      (ms.filterMap (validate_react_activity_info none date)).filter
        (fun i => decide (i.date = D)) := by
  induction ms with
  | nil => rfl
  | cons m ms ihm =>
    by_cases h : date = D
    · subst h
      simp [List.filterMap_cons, validate_some, validate_none, List.filter_cons, mk_info, ihm]
    · simp [List.filterMap_cons, validate_some, validate_none, List.filter_cons, mk_info, h, ihm]

/-- one container's dispatch under a date filter is the unfiltered dispatch
filtered by date. -/
theorem entry_dispatch_filter (D : Date) (e : FeedEntry) :
    entry_dispatch (some D) e =
      (entry_dispatch none e).filter (fun i => decide (i.date = D)) := by
  cases e with
  | single c date s =>
    by_cases h : date = D <;>
      simp [entry_dispatch, validate_some, validate_none, mk_info, h]
  | group c date ms =>
    simpa [entry_dispatch] using filterMap_validate D date ms

/-- one page's dispatch under a date filter is the unfiltered dispatch
filtered by date. -/
theorem page_dispatched_filter (D : Date) (p : PageFetch) :
    page_dispatched (some D) p =
      (page_dispatched none p).filter (fun i => decide (i.date = D)) := by
  cases p with
  | serverError => rfl
  | tooManyRequests => rfl
  | ok entries =>
    induction entries with
    | nil => rfl
    | cons e es ihe =>
      simp only [page_dispatched, List.foldr_cons] at ihe ⊢
      rw [entry_dispatch_filter, ihe, List.filter_append]

/-- the whole crawl's dispatch under a date filter is the unfiltered
dispatch filtered by date. -/
theorem crawl_go_dispatched_filter (D : Date) (d : String → DetailFetch) :
    ∀ (pages : List PageFetch) (tasks : List ActivityInfo) (n m : Nat),
      (crawl_go (some D) d pages
          (tasks.filter (fun i => decide (i.date = D))) m).dispatched =
        ((crawl_go none d pages tasks n).dispatched).filter
          (fun i => decide (i.date = D)) := by
  intro pages
  induction pages with
  | nil => intro tasks n m; rfl
  | cons p rest ih =>
    intro tasks n m
    rw [crawl_go_cons, crawl_go_cons]
    cases p with
    | tooManyRequests => rfl
    | serverError => simp [get_tasks]
    | ok entries =>
      have hpage := page_dispatched_filter D (.ok entries)
      simp only [page_dispatched] at hpage
      simp only [get_tasks]
      by_cases h0 : before_of entries = 0
      · rw [if_pos h0, if_pos h0]
        simp [hpage, List.filter_append]
      · rw [if_neg h0, if_neg h0]
        by_cases h1 : before_of entries = -1
        · rw [if_pos h1, if_pos h1]
          simp [hpage, List.filter_append]
        · rw [if_neg h1, if_neg h1]
          rw [hpage, ← List.filter_append]
          exact ih _ (n + 1) (m + 1)

/-! ## Claim theorems -/

/-- C1 (amended): a crawl whose pagination reaches Done (result is a
record collection) has joined all dispatched task handles exactly once,
every task's result included in or filtered from the returned collection;
but when a page fetch fails with ServerError, pagination aborts and the
crawl returns the `None` sentinel with zero joins — the tasks dispatched
before the failure are abandoned, not awaited. -/
theorem c1_dispatch_join :
    (∀ (filters_date : Option Date) (detail : String → DetailFetch)
        (pages : List PageFetch) (rs : List Activity),
        (get_club_activities filters_date detail pages).result = .records rs →
        (get_club_activities filters_date detail pages).gathers = 1 ∧
        rs = records_of detail (get_club_activities filters_date detail pages).dispatched) ∧
    (∀ (filters_date : Option Date) (detail : String → DetailFetch)
        (ps rest : List PageFetch),
        (∀ p ∈ ps, page_continues p = true) →
        get_club_activities filters_date detail (ps ++ PageFetch.serverError :: rest) =
          ⟨ps.length + 1, pages_dispatch filters_date ps, 0, .errorNone⟩) := by
  constructor
  · intro f d pages rs h
    exact crawl_go_records f d pages [] 0 rs h
  · intro f d ps rest hc
    unfold get_club_activities
    rw [crawl_go_continues f d ps (PageFetch.serverError :: rest) [] 0 hc,
      crawl_go_server_error]
    simp

/-- C1 witness: a feed whose very first page fetch fails with ServerError
returns `None` with nothing dispatched and nothing joined. -/
theorem c1_dispatch_join_witness :
    get_club_activities none detail_server_error [PageFetch.serverError] =
      ⟨1, [], 0, .errorNone⟩ := by
  have h := c1_dispatch_join.2 none detail_server_error [] []
    (by intro p hp; simp at hp)
  simpa [pages_dispatch] using h

/-- C1 counterexample: one task is dispatched from page 1, page 2 fails
with ServerError — the crawl returns `None`, the dispatched handle is never
joined (zero gathers) and its result is in no returned collection,
contradicting the claim as stated. -/
theorem c1_abort_drops_tasks_cex :
    (get_club_activities none detail_server_error
        [PageFetch.ok [FeedEntry.single 5 d20210822 stubA],
          PageFetch.serverError]).dispatched.length = 1 ∧
    (get_club_activities none detail_server_error
        [PageFetch.ok [FeedEntry.single 5 d20210822 stubA],
          PageFetch.serverError]).gathers = 0 ∧
    (get_club_activities none detail_server_error
        [PageFetch.ok [FeedEntry.single 5 d20210822 stubA],
          PageFetch.serverError]).result = .errorNone := by
  decide

/-- C2 (amended): a request whose first response is 429 raises the
RateLimited condition after exactly one underlying request, with no retry;
and whenever a crawl returns a record collection, that collection is
exactly the complete records of the dispatched tasks — never a partial or
corrupt record.  (The third crawl outcome is the `None` sentinel after a
ServerError abort; a fatal raise is the remaining case.) -/
theorem c2_crawl_outcomes :
    (∀ statuses : Nat → Nat, statuses 0 = 429 →
        get_response statuses = ⟨.tooManyRequests, 1, []⟩) ∧
    (∀ (filters_date : Option Date) (detail : String → DetailFetch)
        (pages : List PageFetch) (rs : List Activity),
        (get_club_activities filters_date detail pages).result = .records rs →
        rs = records_of detail (get_club_activities filters_date detail pages).dispatched) := by
  constructor
  · intro statuses h
    simp [get_response, h]
  · intro f d pages rs h
    exact (crawl_go_records f d pages [] 0 rs h).2

/-- C2 witness: a 429 first response raises at once, one request issued. -/
theorem c2_crawl_outcomes_witness :
    get_response (fun _ => 429) = ⟨.tooManyRequests, 1, []⟩ :=
  c2_crawl_outcomes.1 (fun _ => 429) rfl

/-- C2 counterexample: a crawl aborted by ServerError returns the `None`
sentinel — neither a record collection nor a raised fatal error class,
contradicting the dichotomy of the claim as stated. -/
theorem c2_abort_none_cex :
    is_record_collection
      (get_club_activities none detail_server_error [PageFetch.serverError]).result = false ∧
    is_fatal_raise
      (get_club_activities none detail_server_error [PageFetch.serverError]).result = false ∧
    (get_club_activities none detail_server_error [PageFetch.serverError]).result =
      .errorNone := by
  decide

/-- C3: a first response with status ≥ 400 and ≠ 429 triggers exactly one
blind retry after the fixed 5 second delay; a 200 retry makes the fetch
succeed with exactly 2 underlying requests, a non-200 retry raises
ServerError with no third request. -/
theorem c3_single_retry (statuses : Nat → Nat)
    (h400 : 400 ≤ statuses 0) (h429 : statuses 0 ≠ 429) :
    (statuses 1 = 200 →
      get_response statuses = ⟨.success 1 200, 2, [5]⟩) ∧
    (statuses 1 ≠ 200 →
      get_response statuses = ⟨.serverError (statuses 0), 2, [5]⟩) := by
  have h200 : statuses 0 ≠ 200 := by omega
  constructor
  · intro hr
    simp [get_response, h200, h429, h400, hr]
  · intro hr
    simp [get_response, h200, h429, h400, hr]

/-- C3 witness: a 500 then 200 succeeds with 2 requests; a 500 then 503
raises ServerError with 2 requests. -/
theorem c3_single_retry_witness :
    get_response (fun n => if n = 0 then 500 else 200) = ⟨.success 1 200, 2, [5]⟩ ∧
    get_response (fun n => if n = 0 then 500 else 503) = ⟨.serverError 500, 2, [5]⟩ := by
  constructor
  · exact (c3_single_retry (fun n => if n = 0 then 500 else 200)
      (by decide) (by decide)).1 (by decide)
  · exact (c3_single_retry (fun n => if n = 0 then 500 else 503)
      (by decide) (by decide)).2 (by decide)

/-- C4 (amended): the login/reconnect sequence performs up to 2 attempts
(the source's `allowed_attempts`), sleeping a fixed 15 seconds after each
failed attempt; when all attempts fail it returns the failure code `-1`,
which `__ainit__` surfaces as the fatal `StravaSessionFailed`, and the
`strava_connector` stack does not retry the login further. -/
theorem c4_reconnect_attempts (auth : Nat → Bool) :
    (session_reconnecting auth).attempts ≤ allowed_attempts ∧
    (∀ x ∈ (session_reconnecting auth).delays, x = 15) ∧
    ((∀ i, i < allowed_attempts → auth i = false) →
      session_reconnecting auth = ⟨-1, 2, [15, 15]⟩ ∧
      ainit auth = .sessionFailed ∧ connector_init auth = .sessionFailed) := by
  have e := session_reconnecting_eq auth
  by_cases h0 : auth 0
  · rw [if_pos h0] at e
    refine ⟨by rw [e]; simp [allowed_attempts], by rw [e]; intro x hx; simp at hx, ?_⟩
    intro hall
    exact absurd (hall 0 (by simp [allowed_attempts])) (by simp [h0])
  · rw [if_neg h0] at e
    by_cases h1 : auth 1
    · rw [if_pos h1] at e
      refine ⟨by rw [e]; simp [allowed_attempts], ?_, ?_⟩
      · rw [e]; intro x hx; simpa using hx
      · intro hall
        exact absurd (hall 1 (by simp [allowed_attempts])) (by simp [h1])
    · rw [if_neg h1] at e
      refine ⟨by rw [e]; simp [allowed_attempts], ?_, ?_⟩
      · rw [e]; intro x hx; rcases (by simpa using hx : x = 15 ∨ x = 15) with h | h <;> exact h
      · intro _
        refine ⟨e, ?_, ?_⟩
        · simp [ainit, e]
        · simp [connector_init, ainit, e]

/-- C4 witness: with authorization always failing, the sequence stops after
2 attempts with two 15-second sleeps and initialization raises the fatal
session error. -/
theorem c4_reconnect_attempts_witness :
    session_reconnecting (fun _ => false) = ⟨-1, 2, [15, 15]⟩ ∧
    ainit (fun _ => false) = .sessionFailed :=
  ⟨((c4_reconnect_attempts (fun _ => false)).2.2 (fun _ _ => rfl)).1,
    ((c4_reconnect_attempts (fun _ => false)).2.2 (fun _ _ => rfl)).2.1⟩

/-- C4 counterexample: with an authorization oracle whose third attempt
would succeed, the sequence still fails after exactly 2 attempts — not the
3 attempts of the claim as stated. -/
theorem c4_two_attempts_cex :
    session_reconnecting (fun i => decide (2 ≤ i)) = ⟨-1, 2, [15, 15]⟩ ∧
    (session_reconnecting (fun i => decide (2 ≤ i))).attempts ≠ 3 := by
  decide

/-- C5 (amended): pagination stops at the first page with zero entries —
after any run of pages on which the loop continues, the fetch of the empty
page is the last one and the accumulated tasks are gathered; for the feed
with pages of sizes 5, 3 and 0 this means exactly 3 page fetches (the
claim's 2 is off by one: the empty page must itself be fetched) and
exactly 8 dispatched extraction tasks. -/
theorem c5_pagination_counts :
    (∀ (filters_date : Option Date) (detail : String → DetailFetch)
        (ps rest : List PageFetch),
        (∀ p ∈ ps, page_continues p = true) →
        get_club_activities filters_date detail (ps ++ PageFetch.ok [] :: rest) =
          ⟨ps.length + 1, pages_dispatch filters_date ps, 1,
            gather_results detail (pages_dispatch filters_date ps)⟩) ∧
    ((get_club_activities none detail_server_error feed530).fetches = 3 ∧
      (get_club_activities none detail_server_error feed530).dispatched.length = 8) := by
  constructor
  · intro f d ps rest hc
    unfold get_club_activities
    rw [crawl_go_continues f d ps (PageFetch.ok [] :: rest) [] 0 hc, crawl_go_done]
    simp
  · decide

/-- C5 witness: a feed whose first page is already empty is done after the
single fetch, gathering the empty task list. -/
theorem c5_pagination_counts_witness :
    get_club_activities none detail_server_error [PageFetch.ok []] =
      ⟨1, [], 1, .records []⟩ := by
  have h := c5_pagination_counts.1 none detail_server_error [] []
    (by intro p hp; simp at hp)
  simpa [pages_dispatch, gather_results, gather, task_outcomes, to_json] using h

/-- C5 counterexample: on the 5/3/0 feed the crawl performs 3 page
fetches, not the 2 of the claim as stated. -/
theorem c5_three_fetches_cex :
    (get_club_activities none detail_server_error feed530).fetches = 3 ∧
    (get_club_activities none detail_server_error feed530).fetches ≠ 2 := by
  decide

/-- C6: a detail page whose primary metrics are degenerate (distance and
pace both parse to zero) is NOT discarded by the code: the extraction task
returns a complete record with zeroed metrics and the crawl includes it in
the returned collection — contradicting the claim (and the module
docstring "Ignoring non run activities"), which says such an entry is
Discarded(NotARun) and absent from the result. -/
theorem c6_degenerate_included :
    process_activity_page (.ok degenerate_page) infoA =
      .result (some ⟨infoA, ⟨0, 120, 0, 0, 0⟩⟩) ∧
    (get_club_activities none (fun _ => .ok degenerate_page)
        [PageFetch.ok [FeedEntry.single 9 d20210822 stubA], PageFetch.ok []]).result =
      .records [⟨infoA, ⟨0, 120, 0, 0, 0⟩⟩] := by
  have e0 : (digits_val ['0'] : ℚ) + (digits_val ['0'] : ℚ) /
      (10 : ℚ) ^ (['0'] : List Char).length = 0 := by
    norm_num [show digits_val ['0'] = 0 from rfl]
  constructor
  · have h : process_activity_page (.ok degenerate_page) infoA =
        .result (some ⟨infoA, ⟨(digits_val ['0'] : ℚ) + (digits_val ['0'] : ℚ) /
          (10 : ℚ) ^ (['0'] : List Char).length, 120, 0, 0, 0⟩⟩) := rfl
    rw [h, e0]
  · have h : (get_club_activities none (fun _ => .ok degenerate_page)
        [PageFetch.ok [FeedEntry.single 9 d20210822 stubA], PageFetch.ok []]).result =
        .records [⟨infoA, ⟨(digits_val ['0'] : ℚ) + (digits_val ['0'] : ℚ) /
          (10 : ℚ) ^ (['0'] : List Char).length, 120, 0, 0, 0⟩⟩] := rfl
    rw [h, e0]

/-- C7: the metric parsers satisfy the reference round-trip — inline
"6.25 km" parses to distance 6.25, "1:18:53" to 4733 seconds, "4:25/km" to
265 seconds per km; a calories value of "—" resolves to 0 and "1,099"
resolves to 1099. -/
theorem c7_metric_roundtrip :
    process_inline_section (some
        [("Distance", "6.25 km"), ("Moving Time", "1:18:53"), ("Pace", "4:25/km")]) =
      .ok ⟨25 / 4, 4733, 265⟩ ∧
    process_more_stats (some [⟨["—"], ["Calories"]⟩]) = .ok (0, 0) ∧
    process_more_stats (some [⟨["1,099"], ["Calories"]⟩]) = .ok (0, 1099) := by
  refine ⟨?_, rfl, rfl⟩
  have h : process_inline_section (some
      [("Distance", "6.25 km"), ("Moving Time", "1:18:53"), ("Pace", "4:25/km")]) =
      .ok ⟨(digits_val ['6'] : ℚ) + (digits_val ['2', '5'] : ℚ) /
        (10 : ℚ) ^ (['2', '5'] : List Char).length, 4733, 265⟩ := rfl
  have e : (digits_val ['6'] : ℚ) + (digits_val ['2', '5'] : ℚ) /
      (10 : ℚ) ^ (['2', '5'] : List Char).length = 25 / 4 := by
    norm_num [show digits_val ['6'] = 6 from rfl, show digits_val ['2', '5'] = 25 from rfl,
      show (['2', '5'] : List Char).length = 2 from rfl]
  rw [h, e]

/-- C8: with a date filter for day D active, the dispatched extraction
tasks are exactly the stubs (single or group) of the unfiltered feed whose
declared date equals D: stubs with another date are dropped before any
detail fetch (only dispatched tasks fetch their detail page), and every
stub with date D is dispatched. -/
theorem c8_date_filter (D : Date) (detail : String → DetailFetch)
    (pages : List PageFetch) :
    (get_club_activities (some D) detail pages).dispatched =
      ((get_club_activities none detail pages).dispatched).filter
        (fun i => decide (i.date = D)) :=
  crawl_go_dispatched_filter D detail pages [] 0 0

/-- C10: when the first response has status ≥ 400 (≠ 429) and the retry is
non-200, the raised ServerError carries the status code of the FIRST
failing response, whatever the retry's status was. -/
theorem c10_servererror_first_code (statuses : Nat → Nat)
    (h400 : 400 ≤ statuses 0) (h429 : statuses 0 ≠ 429) (hretry : statuses 1 ≠ 200) :
    (get_response statuses).outcome = .serverError (statuses 0) ∧
    (get_response statuses).requests = 2 := by
  have h200 : statuses 0 ≠ 200 := by omega
  simp [get_response, h200, h429, h400, hretry]

/-- C10 witness: first response 500, retry 503 — the error carries 500. -/
theorem c10_servererror_first_code_witness :
    (get_response (fun n => if n = 0 then 500 else 503)).outcome = .serverError 500 ∧
    (get_response (fun n => if n = 0 then 500 else 503)).requests = 2 :=
  c10_servererror_first_code (fun n => if n = 0 then 500 else 503)
    (by decide) (by decide) (by decide)

end Strava
